import Mathlib

/-!
Shallow embedding of the rcswitch Go package (rcswitch.go): codeword
encoders for switch types A/B/C/D, the tri-state expander, the waveform
compiler, the transmitter, and the `RCSwitch` controller with its
configuration and on/off state map.  Strings are modelled as `List Char`,
machine integers as `Int`/`Nat`, the GPIO pin as a trace of level writes,
and fallible functions return `Except String`.
-/

namespace RCSwitchModel

/-- `waveform`: number of high pulses followed by number of low pulses. -/
structure Waveform where
  high : Int
  low : Int
deriving DecidableEq, Repr

/-- A transmission protocol: pulse length plus the sync/zero/one waveforms
and the polarity flag. -/
structure Protocol where
  pulseLen : Int
  syncBit : Waveform
  zeroBit : Waveform
  oneBit : Waveform
  inverted : Bool
deriving DecidableEq, Repr

/-- The fixed `protocols` table of the package (indices 1..6 user-facing). -/
def protocols : List Protocol :=
  [ { pulseLen := 350, syncBit := ⟨1, 31⟩, zeroBit := ⟨1, 3⟩, oneBit := ⟨3, 1⟩, inverted := false },
    { pulseLen := 650, syncBit := ⟨1, 10⟩, zeroBit := ⟨1, 2⟩, oneBit := ⟨2, 1⟩, inverted := false },
    { pulseLen := 100, syncBit := ⟨30, 71⟩, zeroBit := ⟨4, 11⟩, oneBit := ⟨9, 6⟩, inverted := false },
    { pulseLen := 380, syncBit := ⟨1, 6⟩, zeroBit := ⟨1, 3⟩, oneBit := ⟨3, 1⟩, inverted := false },
    { pulseLen := 500, syncBit := ⟨6, 14⟩, zeroBit := ⟨1, 2⟩, oneBit := ⟨2, 1⟩, inverted := false },
    { pulseLen := 450, syncBit := ⟨23, 1⟩, zeroBit := ⟨1, 2⟩, oneBit := ⟨2, 1⟩, inverted := true } ]

/-- A GPIO output level (`gpio.High` / `gpio.Low`). -/
inductive Level where
  | high
  | low
deriving DecidableEq, Repr

/-- One decimal digit of `strconv.Atoi`. -/
def decDigit (c : Char) : Option Nat :=
  if '0' ≤ c ∧ c ≤ '9' then some (c.toNat - '0'.toNat) else none

/-- Digits-only part of `strconv.Atoi`: all characters must be decimal
digits and the string must be non-empty. -/
def decDigits : List Char → Option Nat
  | [] => none
  | [c] => decDigit c
  | c :: rest => do
      let d ← decDigit c
      let n ← decDigits rest
      pure (d * 10 ^ rest.length + n)

/-- `strconv.Atoi`: optional sign followed by decimal digits.  (The int64
range check is irrelevant for the short strings this package parses.) -/
def Atoi (s : List Char) : Option Int :=
  match s with
  | '+' :: rest => (decDigits rest).map Int.ofNat
  | '-' :: rest => (decDigits rest).map fun n => -(n : Int)
  | _ => (decDigits s).map Int.ofNat

/-- One hexadecimal digit of `strconv.ParseUint` with base 16. -/
def hexDigit (c : Char) : Option Nat :=
  if '0' ≤ c ∧ c ≤ '9' then some (c.toNat - '0'.toNat)
  else if 'a' ≤ c ∧ c ≤ 'f' then some (c.toNat - 'a'.toNat + 10)
  else if 'A' ≤ c ∧ c ≤ 'F' then some (c.toNat - 'A'.toNat + 10)
  else none

/-- Digit accumulation of `strconv.ParseUint(s, 16, 8)`. -/
def hexDigitsAux : Nat → List Char → Option Nat
  | acc, [] => some acc
  | acc, c :: rest => do
      let d ← hexDigit c
      hexDigitsAux (acc * 16 + d) rest

/-- `strconv.ParseUint(s, 16, 8)`: non-empty hex string, value below 2^8. -/
def ParseUint16_8 (s : List Char) : Option Nat :=
  match s with
  | [] => none
  | _ => do
      let n ← hexDigitsAux 0 s
      if n < 256 then some n else none

/-- `getCodeWordA`: group and device are 5-character binary strings;
each '0' becomes 'F' and any other character becomes '0'; the status
appends "0F" (on) or "F0" (off). -/
def getCodeWordA (group device : List Char) (status : Bool) :
    Except String (List Char) :=
  if group.length ≠ 5 then
    .error "Group has to have a length of 5 encoded as binary (e.g., 11011)"
  else if device.length ≠ 5 then
    .error "Device has to have a length of 5 encoded as binary (e.g., 10000)"
  else
    .ok ((group ++ device).map (fun b => if b = '0' then 'F' else '0') ++
      (if status then ['0', 'F'] else ['F', '0']))

/-- `getCodeWordB`: one-hot blocks for group and device in [1,4], literal
"FFF", then 'F' (on) or '0' (off). -/
def getCodeWordB (group device : Int) (status : Bool) :
    Except String (List Char) :=
  if group < 1 ∨ group > 4 ∨ device < 1 ∨ device > 4 then
    .error "Group and device have to be within the range of 1 to 4"
  else
    .ok (([1, 2, 3, 4].map fun i => if group = i then '0' else 'F') ++
      ([1, 2, 3, 4].map fun i => if device = i then '0' else 'F') ++
      ['F', 'F', 'F'] ++ [if status then 'F' else '0'])

/-- The family loop of `getCodeWordC`: emit `n` symbols, LSB first,
'F' for a set bit and '0' for a clear one, shifting right each step. -/
def familySymbols : Nat → Nat → List Char
  | 0, _ => []
  | n + 1, f => (if f % 2 = 1 then 'F' else '0') :: familySymbols n (f / 2)

/-- The `conf` closure of `getCodeWordC`: from `iu = i-1`, the first
symbol tests `iu&0x1 == 1` and the second tests `iu&0x2 == 1`
(`conf` is only ever applied to `i` in [1,4], so `uint(i)-1` is `i-1`). -/
def conf (i : Int) : List Char :=
  let iu : Nat := (i - 1).toNat
  [if iu &&& 1 = 1 then 'F' else '0', if iu &&& 2 = 1 then 'F' else '0']

/-- `getCodeWordC`: one hex-digit family, group and device in [1,4];
family bits, `conf` of device then of group, literal "0FF", then the
status symbol. -/
def getCodeWordC (family group device : List Char) (status : Bool) :
    Except String (List Char) :=
  if family.length ≠ 1 then .error "Family has to be a single character"
  else
    match ParseUint16_8 family with
    | none => .error "strconv.ParseUint: parsing family: invalid syntax"
    | some f =>
      match Atoi group with
      | none => .error "strconv.Atoi: parsing group: invalid syntax"
      | some g =>
        if g < 1 ∨ g > 4 then .error "Group has to be between 1 and 4"
        else
          match Atoi device with
          | none => .error "strconv.Atoi: parsing device: invalid syntax"
          | some d =>
            if d < 1 ∨ d > 4 then .error "Device has to be between 1 and 4"
            else
              .ok (familySymbols 4 f ++ conf d ++ conf g ++
                ['0', 'F', 'F'] ++ [if status then 'F' else '0'])

/-- The device switch and the trailing "000" + status of `getCodeWordD`. -/
def getCodeWordDRest (gblock : List Char) (device : Int) (status : Bool) :
    Except String (List Char) :=
  match device with
  | 1 => .ok (gblock ++ ['1', 'F', 'F'] ++ ['0', '0', '0'] ++
      (if status then ['1', '0'] else ['0', '1']))
  | 2 => .ok (gblock ++ ['F', '1', 'F'] ++ ['0', '0', '0'] ++
      (if status then ['1', '0'] else ['0', '1']))
  | 3 => .ok (gblock ++ ['F', 'F', '1'] ++ ['0', '0', '0'] ++
      (if status then ['1', '0'] else ['0', '1']))
  | _ => .error "Group has to be in the range of 1..3"

/-- `getCodeWordD`: group letter a-d (case-insensitive) selects a one-hot
"1" block, device in {1,2,3} selects a 3-symbol block, then "000" and the
two status symbols. -/
def getCodeWordD (group : List Char) (device : Int) (status : Bool) :
    Except String (List Char) :=
  if group.length ≠ 1 then .error "Group has to be a single character"
  else
    match group.map Char.toLower with
    | ['a'] => getCodeWordDRest ['1', 'F', 'F', 'F'] device status
    | ['b'] => getCodeWordDRest ['F', '1', 'F', 'F'] device status
    | ['c'] => getCodeWordDRest ['F', 'F', '1', 'F'] device status
    | ['d'] => getCodeWordDRest ['F', 'F', 'F', '1'] device status
    | _ => .error "Group has to be in a-d or A-D"

/-- `getCodeWord` dispatch: non-empty family → Type C; both lengths > 1 →
Type A; both lengths 1 → parse the device, then if the group does NOT
parse call `getCodeWordB` with the zero value `g = 0`, and if it does
parse call `getCodeWordD` (this mirrors the source exactly, including the
swapped B/D branches). -/
def getCodeWord (family group device : List Char) (status : Bool) :
    Except String (List Char) :=
  if family ≠ [] then getCodeWordC family group device status
  else if group.length > 1 ∧ device.length > 1 then
    getCodeWordA group device status
  else if group.length = 1 ∧ device.length = 1 then
    match Atoi device with
    | none =>
        .error "Protocols B/D have a device string that can be converted to an integer"
    | some d =>
      match Atoi group with
      | none => getCodeWordB 0 d status
      | some _ => getCodeWordD group d status
  else
    .error "family, group, device combination not supported"

/-- `triStateToBinary`: '0'→"00", '1'→"11", 'F'→"01", anything else is
skipped. -/
def triStateToBinary (tristate : List Char) : List Char :=
  tristate.flatMap fun c =>
    match c with
    | '0' => ['0', '0']
    | '1' => ['1', '1']
    | 'F' => ['0', '1']
    | _ => []

/-- `binaryToWaveForm`: '1' becomes the protocol's one bit, every other
character the zero bit, with a trailing sync bit. -/
def binaryToWaveForm (binary : List Char) (prot : Protocol) : List Waveform :=
  binary.map (fun b => if b = '1' then prot.oneBit else prot.zeroBit) ++
    [prot.syncBit]

/-- The pair of levels `transmit` drives: (first, second) is (High, Low),
swapped when the protocol is inverted. -/
def transmitLevels (prot : Protocol) : Level × Level :=
  if prot.inverted then (Level.low, Level.high) else (Level.high, Level.low)

/-- `transmit`: the trace of pin writes, each paired with the duration
(in the protocol's pulse-length units times the waveform count) the level
is held; the whole waveform list is replayed `nrRepeat` times. -/
def transmit (ws : List Waveform) (prot : Protocol) (nrRepeat : Int) :
    List (Level × Int) :=
  (List.range nrRepeat.toNat).flatMap fun _ =>
    ws.flatMap fun w =>
      [((transmitLevels prot).1, w.high * prot.pulseLen),
       ((transmitLevels prot).2, w.low * prot.pulseLen)]

/-- The `RCSwitch` controller state: active protocol, repeat count, and
the per-key on/off map (`group+device ↦ bool`, absent keys read `false`,
modelled as a total function into `Bool`). -/
structure RCSwitch where
  protocol : Protocol
  nrRepeat : Int
  isOn : List Char → Bool

/-- The zero value of the `protocol` struct (Go's implicit default before
`SetProtocol` runs in the constructor). -/
def zeroProtocol : Protocol :=
  { pulseLen := 0, syncBit := ⟨0, 0⟩, zeroBit := ⟨0, 0⟩, oneBit := ⟨0, 0⟩,
    inverted := false }

/-- `SetRepeat`: rejects non-positive counts, otherwise stores the new
repeat count.  Returns the new state and the error, if any. -/
def SetRepeat (s : RCSwitch) (nrRepeat : Int) : RCSwitch × Option String :=
  if nrRepeat ≤ 0 then (s, some "Repeat has to be a positive number")
  else ({ s with nrRepeat := nrRepeat }, none)

/-- `SetProtocol`: rejects indices outside 1..`protocols.length`,
otherwise stores entry `protocol-1` of the table. -/
def SetProtocol (s : RCSwitch) (protocol : Int) : RCSwitch × Option String :=
  if protocol ≤ 0 ∨ protocol > (protocols.length : Int) then
    (s, some "Protocol is not supported")
  else
    ({ s with protocol := protocols.getD (protocol - 1).toNat zeroProtocol },
     none)

/-- `NewRCSwitch`: empty state map, repeat count 10, then `SetProtocol 1`
as in the constructor. -/
def NewRCSwitch : RCSwitch :=
  (SetProtocol
    { protocol := zeroProtocol, nrRepeat := 10, isOn := fun _ => false } 1).1

/-- `send` = `binaryToWaveForm` then `transmit`: the pin-write trace of
sending a binary string with the controller's protocol and repeat. -/
def send (s : RCSwitch) (binary : List Char) : List (Level × Int) :=
  transmit (binaryToWaveForm binary s.protocol) s.protocol s.nrRepeat

/-- `sendTriState` = expand then `send`. -/
def sendTriState (s : RCSwitch) (tristate : List Char) : List (Level × Int) :=
  send s (triStateToBinary tristate)

/-- `SwitchOn`: encode, and on success transmit and record `true` under
key `group+device`; on error return unchanged with no writes.  The result
is (new state, pin-write trace, error). -/
def SwitchOn (s : RCSwitch) (family group device : List Char) :
    RCSwitch × List (Level × Int) × Option String :=
  match getCodeWord family group device true with
  | .error e => (s, [], some e)
  | .ok code =>
      ({ s with isOn := fun k => if k = group ++ device then true else s.isOn k },
       sendTriState s code, none)

/-- `SwitchOff`: same as `SwitchOn` with status `false`. -/
def SwitchOff (s : RCSwitch) (family group device : List Char) :
    RCSwitch × List (Level × Int) × Option String :=
  match getCodeWord family group device false with
  | .error e => (s, [], some e)
  | .ok code =>
      ({ s with isOn := fun k => if k = group ++ device then false else s.isOn k },
       sendTriState s code, none)

/-- `IsOn`: read the recorded state of key `group+device`. -/
def IsOn (s : RCSwitch) (group device : List Char) : Bool :=
  s.isOn (group ++ device)

/-! ### Helper lemmas -/

theorem length_flatMap_const {α β : Type} (l : List α) (L : List β) :
    (l.flatMap fun _ => L).length = l.length * L.length := by
  induction l with
  | nil => simp
  | cons a t ih =>
      simp only [List.flatMap_cons, List.length_append, List.length_cons, ih]
      ring

theorem length_flatMap_pair {α β : Type} (l : List α) (f g : α → β) :
    (l.flatMap fun a => [f a, g a]).length = 2 * l.length := by
  induction l with
  | nil => simp
  | cons a t ih =>
      simp only [List.flatMap_cons, List.length_append, List.length_cons,
        List.length_nil, ih]
      ring

theorem transmit_length (ws : List Waveform) (prot : Protocol) (r : Int) :
    (transmit ws prot r).length = r.toNat * (2 * ws.length) := by
  unfold transmit
  rw [length_flatMap_const, List.length_range, length_flatMap_pair]

theorem binaryToWaveForm_length (binary : List Char) (prot : Protocol) :
    (binaryToWaveForm binary prot).length = binary.length + 1 := by
  simp [binaryToWaveForm]

/-! ### Claims -/

/-- C4: every Type A input with 5-character group and device yields a
12-symbol codeword ending in "0F" (on) / "F0" (off), and the golden value
`getCodeWordA "11011" "10000" on = "00F000FFFF0F"` holds. -/
theorem typeA_shape_and_golden (group device : List Char) (status : Bool)
    (hg : group.length = 5) (hd : device.length = 5) :
    (∃ cw, getCodeWordA group device status = .ok cw ∧ cw.length = 12 ∧
      cw.drop 10 = (if status then ['0', 'F'] else ['F', '0'])) ∧
    getCodeWordA "11011".data "10000".data true = .ok "00F000FFFF0F".data := by
  refine ⟨⟨(group ++ device).map (fun b => if b = '0' then 'F' else '0') ++
    (if status then ['0', 'F'] else ['F', '0']), ?_, ?_, ?_⟩, by rfl⟩
  · simp [getCodeWordA, hg, hd]
  · cases status <;> simp [hg, hd]
  · have h10 : ((group ++ device).map
        (fun b => if b = '0' then 'F' else '0')).length = 10 := by
      simp [hg, hd]
    rw [← h10, List.drop_left]

/-- Witness for C4 at group "11011", device "10000", status on. -/
theorem typeA_shape_and_golden_witness :
    ("11011".data.length = 5 ∧ "10000".data.length = 5) ∧
    ((∃ cw, getCodeWordA "11011".data "10000".data true = .ok cw ∧
        cw.length = 12 ∧ cw.drop 10 = (if true then ['0', 'F'] else ['F', '0'])) ∧
      getCodeWordA "11011".data "10000".data true = .ok "00F000FFFF0F".data) :=
  ⟨⟨by decide, by decide⟩,
    typeA_shape_and_golden "11011".data "10000".data true (by decide) (by decide)⟩

/-- C7: `SetProtocol n` errors exactly when `n` is outside 1..6. -/
theorem setProtocol_error_iff (s : RCSwitch) (n : Int) :
    (SetProtocol s n).2.isSome = true ↔ (n < 1 ∨ 6 < n) := by
  have hlen : (protocols.length : Int) = 6 := rfl
  unfold SetProtocol
  rw [hlen]
  split
  · simp only [Option.isSome_some, true_iff]
    omega
  · simp only [Option.isSome_none, Bool.false_eq_true, false_iff]
    omega

/-- C5: after a successful `SetRepeat n` (`n > 0`), one transmission of a
binary string performs exactly `n * (2*len(binary) + 2)` pin writes, and
`SetRepeat 0` and `SetRepeat (-5)` both fail. -/
theorem setRepeat_transmit_count (s : RCSwitch) (n : Int) (hn : 0 < n)
    (binary : List Char) :
    (SetRepeat s n).2 = none ∧
    ((send (SetRepeat s n).1 binary).length : Int) =
      n * (2 * binary.length + 2) ∧
    (SetRepeat s 0).2.isSome = true ∧ (SetRepeat s (-5)).2.isSome = true := by
  have h0 : ¬ (n ≤ 0) := by omega
  refine ⟨by simp [SetRepeat, h0], ?_, by simp [SetRepeat], by simp [SetRepeat]⟩
  have hr : (SetRepeat s n).1.nrRepeat = n := by simp [SetRepeat, h0]
  unfold send
  rw [transmit_length, binaryToWaveForm_length, hr]
  have hn' : ((n.toNat : Nat) : Int) = n := Int.toNat_of_nonneg hn.le
  push_cast
  rw [hn']
  ring

/-- Witness for C5 at `n = 3` with binary "01" on a fresh controller. -/
theorem setRepeat_transmit_count_witness :
    (0 : Int) < 3 ∧
    ((SetRepeat NewRCSwitch 3).2 = none ∧
      ((send (SetRepeat NewRCSwitch 3).1 "01".data).length : Int) =
        3 * (2 * "01".data.length + 2) ∧
      (SetRepeat NewRCSwitch 0).2.isSome = true ∧
      (SetRepeat NewRCSwitch (-5)).2.isSome = true) :=
  ⟨by decide, setRepeat_transmit_count NewRCSwitch 3 (by decide) "01".data⟩

theorem triStateToBinary_length (cw : List Char)
    (h : ∀ c ∈ cw, c = '0' ∨ c = '1' ∨ c = 'F') :
    (triStateToBinary cw).length = 2 * cw.length := by
  induction cw with
  | nil => rfl
  | cons c t ih =>
      have hc := h c (List.mem_cons_self c t)
      have ht := ih fun x hx => h x (List.mem_cons_of_mem c hx)
      unfold triStateToBinary at ht ⊢
      rw [List.flatMap_cons, List.length_append, ht]
      rcases hc with h1 | h1 | h1 <;> subst h1 <;> simp <;> ring

/-- C6: on codewords over {0,1,F} the expander doubles the length
(mapping '0'→"00", '1'→"11", 'F'→"01" and skipping anything else), and
the compiled waveform sequence has length `2*len + 1`. -/
theorem expander_compiler_shape (cw : List Char)
    (h : ∀ c ∈ cw, c = '0' ∨ c = '1' ∨ c = 'F') (prot : Protocol) :
    (triStateToBinary cw).length = 2 * cw.length ∧
    (binaryToWaveForm (triStateToBinary cw) prot).length = 2 * cw.length + 1 ∧
    triStateToBinary ['0'] = ['0', '0'] ∧
    triStateToBinary ['1'] = ['1', '1'] ∧
    triStateToBinary ['F'] = ['0', '1'] ∧
    triStateToBinary ['x'] = [] := by
  have hl := triStateToBinary_length cw h
  exact ⟨hl, by rw [binaryToWaveForm_length, hl], rfl, rfl, rfl, rfl⟩

/-- Witness for C6 at the codeword "01F" and protocol 1. -/
theorem expander_compiler_shape_witness :
    (∀ c ∈ ['0', '1', 'F'], c = '0' ∨ c = '1' ∨ c = 'F') ∧
    ((triStateToBinary ['0', '1', 'F']).length = 2 * (['0', '1', 'F'] : List Char).length ∧
      (binaryToWaveForm (triStateToBinary ['0', '1', 'F'])
        (protocols.getD 0 zeroProtocol)).length =
        2 * (['0', '1', 'F'] : List Char).length + 1 ∧
      triStateToBinary ['0'] = ['0', '0'] ∧
      triStateToBinary ['1'] = ['1', '1'] ∧
      triStateToBinary ['F'] = ['0', '1'] ∧
      triStateToBinary ['x'] = []) :=
  ⟨by decide, expander_compiler_shape ['0', '1', 'F'] (by decide)
    (protocols.getD 0 zeroProtocol)⟩

/-- C8: whenever `SwitchOn` or `SwitchOff` returns an error, the call has
produced no pin writes and the on/off state map is unchanged. -/
theorem switch_error_no_effect (s : RCSwitch) (family group device : List Char) :
    ((SwitchOn s family group device).2.2.isSome = true →
      (SwitchOn s family group device).2.1 = [] ∧
      (SwitchOn s family group device).1.isOn = s.isOn) ∧
    ((SwitchOff s family group device).2.2.isSome = true →
      (SwitchOff s family group device).2.1 = [] ∧
      (SwitchOff s family group device).1.isOn = s.isOn) := by
  constructor
  · unfold SwitchOn
    cases getCodeWord family group device true <;> simp
  · unfold SwitchOff
    cases getCodeWord family group device false <;> simp

/-- Witness for C8 at the failing call `SwitchOn "" "1" "2"`. -/
theorem switch_error_no_effect_witness :
    (SwitchOn NewRCSwitch [] ['1'] ['2']).2.2.isSome = true ∧
    ((SwitchOn NewRCSwitch [] ['1'] ['2']).2.1 = [] ∧
      (SwitchOn NewRCSwitch [] ['1'] ['2']).1.isOn = NewRCSwitch.isOn) :=
  ⟨by decide, (switch_error_no_effect NewRCSwitch [] ['1'] ['2']).1 (by decide)⟩

/-- C9: the state key is the concatenation `group ++ device`, so any two
(group, device) pairs with equal concatenations alias one entry: after a
successful `SwitchOn family g1 d1`, `IsOn g2 d2` is true whenever
`g1 ++ d1 = g2 ++ d2`. -/
theorem key_aliasing (s : RCSwitch) (family g1 d1 g2 d2 : List Char)
    (hkey : g1 ++ d1 = g2 ++ d2)
    (hok : (SwitchOn s family g1 d1).2.2 = none) :
    IsOn (SwitchOn s family g1 d1).1 g2 d2 = true := by
  unfold SwitchOn at hok ⊢
  cases hgc : getCodeWord family g1 d1 true with
  | error e => rw [hgc] at hok; simp at hok
  | ok code => simp [IsOn, ← hkey]

/-- Witness for C9: a successful Type A `SwitchOn` with key "1101110000"
read back through the differently split pair ("1101", "110000"). -/
theorem key_aliasing_witness :
    ("11011".data ++ "10000".data = "1101".data ++ "110000".data) ∧
    (SwitchOn NewRCSwitch [] "11011".data "10000".data).2.2 = none ∧
    IsOn (SwitchOn NewRCSwitch [] "11011".data "10000".data).1
      "1101".data "110000".data = true :=
  ⟨by decide, by decide,
    key_aliasing NewRCSwitch [] "11011".data "10000".data "1101".data
      "110000".data (by decide) (by decide)⟩

/-- C10: a failing `SetRepeat` or `SetProtocol` leaves the controller
state (protocol, repeat count, map) exactly as it was. -/
theorem config_error_unchanged (s : RCSwitch) (n p : Int) :
    ((SetRepeat s n).2.isSome = true → (SetRepeat s n).1 = s) ∧
    ((SetProtocol s p).2.isSome = true → (SetProtocol s p).1 = s) := by
  constructor
  · unfold SetRepeat
    split <;> simp
  · unfold SetProtocol
    split <;> simp

/-- Witness for C10 at `SetRepeat 0` and `SetProtocol 7`. -/
theorem config_error_unchanged_witness :
    ((SetRepeat NewRCSwitch 0).2.isSome = true ∧
      (SetRepeat NewRCSwitch 0).1 = NewRCSwitch) ∧
    ((SetProtocol NewRCSwitch 7).2.isSome = true ∧
      (SetProtocol NewRCSwitch 7).1 = NewRCSwitch) :=
  ⟨⟨by decide, (config_error_unchanged NewRCSwitch 0 7).1 (by decide)⟩,
    ⟨by decide, (config_error_unchanged NewRCSwitch 0 7).2 (by decide)⟩⟩

/-- C1 counter-evidence: with empty family and single-character group and
device, a group that parses as an integer ("1") is routed to the Type D
encoder (which rejects it), and a group that does not parse ("a") is
routed to the Type B encoder with the zero value `g = 0` (which rejects
it) — the opposite of the documented dispatch; the Type B encoder itself
does accept (1, 2). -/
theorem dispatch_swapped_eval :
    getCodeWord [] ['1'] ['2'] true = .error "Group has to be in a-d or A-D" ∧
    getCodeWord [] ['a'] ['2'] true =
      .error "Group and device have to be within the range of 1 to 4" ∧
    getCodeWordB 1 2 true = .ok "0FFFF0FFFFFF".data :=
  ⟨rfl, rfl, rfl⟩

/-- C2 counter-evidence: `SwitchOn "" "1" "2"` on a fresh controller
returns the Type D validation error and records nothing, so
`IsOn "1" "2"` stays false (and it is false before any command). -/
theorem switchOn_typeB_eval :
    (SwitchOn NewRCSwitch [] ['1'] ['2']).2.2 =
      some "Group has to be in a-d or A-D" ∧
    IsOn (SwitchOn NewRCSwitch [] ['1'] ['2']).1 ['1'] ['2'] = false ∧
    IsOn NewRCSwitch ['1'] ['2'] = false :=
  ⟨rfl, rfl, rfl⟩

/-- C3 counter-evidence: the second symbol emitted by `conf` is '0' for
every `i` in [1,4] because the source tests `iu&0x2 == 1`, which is never
true (`2 &&& 2 = 2`); in particular `conf 3 = conf 1` and
`conf 4 = conf 2`, though bit 1 of `i-1` is set for `i = 3, 4`. -/
theorem conf_second_symbol_eval :
    conf 1 = ['0', '0'] ∧ conf 2 = ['F', '0'] ∧ conf 3 = ['0', '0'] ∧
    conf 4 = ['F', '0'] ∧ conf 3 = conf 1 ∧ conf 4 = conf 2 ∧
    ((3 : Int) - 1).toNat &&& 2 = 2 := by
  decide

end RCSwitchModel
